import Mathlib

/-!
Shallow embedding of the client-side session/state layer of the
SolidVoice UI (`src/ui/src/backend.rs` and the input-bar logic of
`src/ui/src/app.rs`), together with theorems settling the spec claims.

Modelling conventions:
* Rust `VecDeque<HistoryEntry>` becomes `List HistoryEntry` with the
  front of the deque as the head of the list (`push_front` is `cons`).
* The only impurity in the Rust code is `chrono::Local::now()`; it is
  threaded explicitly as a `now : String` argument to the operations
  that stamp history entries.
* `serde_json::Value` (the opaque `parameters` field) is modelled as an
  opaque `String`; no claim inspects it.
* `f32` waveform samples are modelled as `Float`; no claim computes on
  them, they are only stored and compared for (propositional) identity.
-/

/-- Mirrors `enum ConnectionStatus` in `backend.rs`. -/
inductive ConnectionStatus where
  | connected
  | disconnected
  | connecting
deriving DecidableEq, Repr

/-- Mirrors `struct FeatureEntry` in `backend.rs` (`parameters` opaque). -/
structure FeatureEntry where
  feature_type : String
  label : String
  user_intent : String
  parameters : String
  timestamp : String
deriving DecidableEq, Repr

/-- Mirrors `struct HistoryEntry` in `backend.rs`. -/
structure HistoryEntry where
  timestamp : String
  command : String
  action : String
  result : String
deriving DecidableEq, Repr

/-- Mirrors `enum ServerMessage` in `backend.rs` (six tagged variants). -/
inductive ServerMessage where
  | status (solidworks qdrant ollama claude : Bool)
  | listening (active : Bool)
  | transcription (text : String)
  | action (command action result : String)
  | features (items : List FeatureEntry)
  | waveform (samples : List Float)

/-- Mirrors `struct BackendClient` in `backend.rs`: the whole mutable
client state.  `history` is newest-first (head = front of the deque). -/
structure BackendClient where
  url : String
  status : ConnectionStatus
  listening : Bool
  solidworks_ok : Bool
  qdrant_ok : Bool
  ollama_ok : Bool
  claude_ok : Bool
  features : List FeatureEntry
  history : List HistoryEntry
  waveform : List Float
  last_transcription : String

namespace BackendClient

/-- Mirrors `BackendClient::new` (`backend.rs` lines 88-102): everything
empty/false, status `Disconnected`. -/
def new (url : String) : BackendClient :=
  { url := url
    status := ConnectionStatus.disconnected
    listening := false
    solidworks_ok := false
    qdrant_ok := false
    ollama_ok := false
    claude_ok := false
    features := []
    history := []
    waveform := []
    last_transcription := "" }

/-- Mirrors `BackendClient::connection_status` (line 111). -/
def connection_status (s : BackendClient) : ConnectionStatus :=
  s.status

/-- Mirrors `BackendClient::is_listening` (line 115). -/
def is_listening (s : BackendClient) : Bool :=
  s.listening

/-- Mirrors `BackendClient::send_command` (lines 119-130): always pushes
one entry at the front with action `"pending"` and the fixed result
string `"Sent to backend…"`; the actual WebSocket send is a `TODO` in
the source, so nothing else happens.  `now` stands for the
`chrono::Local::now().format("%H:%M:%S")` timestamp. -/
def send_command (now text : String) (s : BackendClient) : BackendClient :=
  { s with
    history :=
      { timestamp := now, command := text, action := "pending"
        result := "Sent to backend…" } :: s.history }

/-- Mirrors `BackendClient::toggle_listening` (lines 132-136). -/
def toggle_listening (s : BackendClient) : BackendClient :=
  { s with listening := !s.listening }

/-- Mirrors `BackendClient::handle_message` (lines 139-179), the
`apply` of the session state machine. -/
def handle_message (now : String) (s : BackendClient) :
    ServerMessage → BackendClient
  | .status solidworks qdrant ollama claude =>
      { s with
        solidworks_ok := solidworks
        qdrant_ok := qdrant
        ollama_ok := ollama
        claude_ok := claude
        status := ConnectionStatus.connected }
  | .listening active => { s with listening := active }
  | .transcription text => { s with last_transcription := text }
  | .action command action result =>
      { s with
        history :=
          { timestamp := now, command := command, action := action
            result := result } :: s.history }
  | .features items => { s with features := items }
  | .waveform samples => { s with waveform := samples }

end BackendClient

/-- Applies a whole sequence of inbound messages in arrival order, each
with its own timestamp. -/
def applyAll (s : BackendClient) (ms : List (String × ServerMessage)) :
    BackendClient :=
  ms.foldl (fun st p => st.handle_message p.1 p.2) s

/-- The four service-health flags as one tuple, in declaration order. -/
def healthFlags (s : BackendClient) : Bool × Bool × Bool × Bool :=
  (s.solidworks_ok, s.qdrant_ok, s.ollama_ok, s.claude_ok)

/-- The payload of a `Status` message, `none` for the other variants. -/
def statusFields : ServerMessage → Option (Bool × Bool × Bool × Bool)
  | .status a b c d => some (a, b, c, d)
  | _ => none

/-- Models Rust `str::trim` (used in `app.rs` lines 60-61): drops
whitespace from both ends of the string.  Rust trims Unicode
`White_Space`; this model uses Lean's `Char.isWhitespace`, which agrees
with it on the ASCII whitespace at issue here. -/
def rustTrim (s : String) : String :=
  ⟨((s.data.dropWhile Char.isWhitespace).reverse.dropWhile
      Char.isWhitespace).reverse⟩

/-- Mirrors the state behind the input bar of `VoiceAiApp` in `app.rs`:
the backend client plus the text currently typed in the command box. -/
structure VoiceAiApp where
  backend : BackendClient
  command_input : String

/-- Mirrors the Send-button / Enter handler in `VoiceAiApp::update`
(`app.rs` lines 56-64): only when the trimmed input is non-empty is
`send_command` called (with the trimmed text) and the box cleared. -/
def VoiceAiApp.submit (now : String) (app : VoiceAiApp) : VoiceAiApp :=
  if (rustTrim app.command_input).isEmpty then app
  else
    { backend :=
        app.backend.send_command now (rustTrim app.command_input)
      command_input := "" }

-- ─── Helper lemmas ───────────────────────────────────────────────────────────

/-- Each `send_command` grows the history by exactly one entry, so `n`
iterated calls grow it by `n`. -/
lemma send_command_iterate_history_length (now text : String) (n : Nat)
    (s : BackendClient) :
    ((fun st => BackendClient.send_command now text st)^[n] s).history.length
      = n + s.history.length := by
  induction n generalizing s with
  | zero => simp
  | succ k ih =>
      rw [Function.iterate_succ_apply, ih]
      simp [BackendClient.send_command]
      omega

/-- The last element of a list with an explicit final singleton. -/
lemma getLast_append_singleton {α : Type} (l : List α) (x : α) :
    (l ++ [x]).getLast? = some x := by
  rw [List.getLast?_append_cons]
  rfl

-- ─── Claim theorems ──────────────────────────────────────────────────────────

/-- C1: the claim says the history never exceeds 500 entries, with the
oldest evicted at capacity.  The code never evicts (`push_front` with no
truncation; `with_capacity(500)` only preallocates), so 501 consecutive
`send_command` calls on a fresh client leave 501 entries in the
history. -/
theorem history_exceeds_500_after_501_sends :
    ((fun st => BackendClient.send_command "12:00:00" "x" st)^[501]
        (BackendClient.new "ws://127.0.0.1:9100")).history.length = 501 := by
  rw [send_command_iterate_history_length]
  rfl

/-- C2 counterexample: `send_command("")` is not a no-op — on a fresh
client it creates one history entry. -/
theorem send_command_empty_not_noop :
    ((BackendClient.new "ws://127.0.0.1:9100").send_command "12:00:00"
        "").history.length = 1
      ∧ (BackendClient.new "ws://127.0.0.1:9100").history.length = 0 :=
  ⟨rfl, rfl⟩

/-- C2 (amended): the whitespace guard lives in the UI layer, not in
`send_command`: `VoiceAiApp::update` calls `send_command` only when the
trimmed input is non-empty, so submitting a whitespace-only input
through the input bar leaves the whole application state unchanged. -/
theorem submit_whitespace_noop (app : VoiceAiApp) (now : String)
    (h : (rustTrim app.command_input).isEmpty = true) :
    app.submit now = app := by
  simp [VoiceAiApp.submit, h]

/-- C2 witness: submitting the whitespace-only input `"   "` changes
nothing. -/
theorem submit_whitespace_noop_witness :
    (rustTrim (VoiceAiApp.mk (BackendClient.new "ws://127.0.0.1:9100")
        "   ").command_input).isEmpty = true
      ∧ (VoiceAiApp.mk (BackendClient.new "ws://127.0.0.1:9100")
            "   ").submit "12:00:00"
          = VoiceAiApp.mk (BackendClient.new "ws://127.0.0.1:9100") "   " :=
  ⟨by decide,
   submit_whitespace_noop
     (VoiceAiApp.mk (BackendClient.new "ws://127.0.0.1:9100") "   ")
     "12:00:00" (by decide)⟩

/-- C3: the claim says a command sent while disconnected gets a
failure-indicating result.  The code stamps every optimistic entry with
the same fixed result `"Sent to backend…"`, whether the client is
disconnected or connected (the WebSocket send itself is a `TODO`), so
the result carries no failure annotation: on a fresh (disconnected)
client the single entry created for `"sketch a circle"` has result
`"Sent to backend…"`, exactly the result produced after a `Status`
event has connected the client. -/
theorem send_while_disconnected_result_is_fixed :
    (BackendClient.new "ws://127.0.0.1:9100").connection_status
        = ConnectionStatus.disconnected
      ∧ ((BackendClient.new "ws://127.0.0.1:9100").send_command "12:00:00"
            "sketch a circle").history
          = [{ timestamp := "12:00:00", command := "sketch a circle"
               action := "pending", result := "Sent to backend…" }]
      ∧ ((((BackendClient.new "ws://127.0.0.1:9100").handle_message
              "12:00:01" (.status true true true true)).send_command
            "12:00:02" "sketch a circle").history.head?.map
          HistoryEntry.result) = some "Sent to backend…" :=
  ⟨rfl, rfl, rfl⟩

/-- C4: over any sequence of applied messages, the health-flag tuple
after the last `Status` event equals that event's fields exactly
(last-write-wins, no merging), and once any `Status` event occurred the
connection status is `Connected`. -/
theorem status_last_write_wins (s : BackendClient)
    (ms : List (String × ServerMessage)) (a b c d : Bool)
    (h : (ms.filterMap (fun p => statusFields p.2)).getLast?
        = some (a, b, c, d)) :
    healthFlags (applyAll s ms) = (a, b, c, d)
      ∧ (applyAll s ms).connection_status = ConnectionStatus.connected := by
  induction ms using List.reverseRecOn with
  | nil => simp at h
  | append_singleton l p ih =>
      obtain ⟨n, m⟩ := p
      rw [applyAll, List.foldl_append] at *
      cases m with
      | status a' b' c' d' =>
          rw [List.filterMap_append] at h
          simp only [statusFields, List.filterMap_cons, List.filterMap_nil,
            getLast_append_singleton, Option.some.injEq] at h
          obtain ⟨rfl, rfl, rfl, rfl⟩ := h
          exact ⟨rfl, rfl⟩
      | listening active =>
          rw [List.filterMap_append] at h
          simp only [statusFields, List.filterMap_cons, List.filterMap_nil,
            List.append_nil] at h
          exact ih h
      | transcription text =>
          rw [List.filterMap_append] at h
          simp only [statusFields, List.filterMap_cons, List.filterMap_nil,
            List.append_nil] at h
          exact ih h
      | action c' a' r' =>
          rw [List.filterMap_append] at h
          simp only [statusFields, List.filterMap_cons, List.filterMap_nil,
            List.append_nil] at h
          exact ih h
      | features items =>
          rw [List.filterMap_append] at h
          simp only [statusFields, List.filterMap_cons, List.filterMap_nil,
            List.append_nil] at h
          exact ih h
      | waveform samples =>
          rw [List.filterMap_append] at h
          simp only [statusFields, List.filterMap_cons, List.filterMap_nil,
            List.append_nil] at h
          exact ih h

/-- C4 witness: a concrete sequence with two `Status` events and one
other message in between ends with the flags of the second `Status`
event and a `Connected` status. -/
theorem status_last_write_wins_witness :
    (([("08:00:00", ServerMessage.status true true false false),
        ("08:00:01", ServerMessage.listening true),
        ("08:00:02",
          ServerMessage.status false true false true)].filterMap
          (fun p => statusFields p.2)).getLast?
        = some (false, true, false, true))
      ∧ healthFlags (applyAll (BackendClient.new "ws://127.0.0.1:9100")
            [("08:00:00", ServerMessage.status true true false false),
             ("08:00:01", ServerMessage.listening true),
             ("08:00:02", ServerMessage.status false true false true)])
          = (false, true, false, true)
      ∧ (applyAll (BackendClient.new "ws://127.0.0.1:9100")
            [("08:00:00", ServerMessage.status true true false false),
             ("08:00:01", ServerMessage.listening true),
             ("08:00:02",
               ServerMessage.status false true false true)]).connection_status
          = ConnectionStatus.connected := by
  refine ⟨rfl, ?_⟩
  exact status_last_write_wins (BackendClient.new "ws://127.0.0.1:9100")
    [("08:00:00", ServerMessage.status true true false false),
     ("08:00:01", ServerMessage.listening true),
     ("08:00:02", ServerMessage.status false true false true)]
    false true false true rfl

/-- C5: applying the same `Status` message twice in succession yields
exactly the state of applying it once — the branch overwrites the four
flags and the status and touches nothing else. -/
theorem status_idempotent (s : BackendClient) (n1 n2 : String)
    (a b c d : Bool) :
    (s.handle_message n1 (.status a b c d)).handle_message n2
        (.status a b c d)
      = s.handle_message n1 (.status a b c d) :=
  rfl

/-- C6: a `Listening{active}` event is authoritative: from any state —
in particular any state reached by a prior optimistic
`toggle_listening` — `is_listening` afterwards returns exactly
`active`. -/
theorem listening_event_authoritative (s : BackendClient) (n : String)
    (active : Bool) :
    ((s.handle_message n (.listening active)).is_listening = active)
      ∧ ((s.toggle_listening.handle_message n
            (.listening active)).is_listening = active) :=
  ⟨rfl, rfl⟩

/-- C7: an `Action{command, action, result}` event appends exactly one
entry carrying those fields at the front of the history; every
previously present entry is retained, in its prior relative order, with
no matching, merging or replacement of pending optimistic entries. -/
theorem action_appends_front (s : BackendClient) (n c a r : String) :
    (s.handle_message n (.action c a r)).history
      = { timestamp := n, command := c, action := a, result := r }
          :: s.history :=
  rfl

/-- C8: a `Features{items}` event replaces the feature collection
wholesale: afterwards the feature list is exactly `items`, whatever the
previous list was (including when `items` is empty). -/
theorem features_replaced_wholesale (s : BackendClient) (n : String)
    (items : List FeatureEntry) :
    (s.handle_message n (.features items)).features = items :=
  rfl

/-- C9: frame effect of `send_command`: it pushes one entry (command =
the given text, action `"pending"`) at the front of the history and
changes nothing else — url, connection status, listening flag, the four
health flags, features, waveform and last transcription are all
unchanged. -/
theorem send_command_frame (s : BackendClient) (now text : String) :
    (s.send_command now text).history
        = { timestamp := now, command := text, action := "pending"
            result := "Sent to backend…" } :: s.history
      ∧ (s.send_command now text).url = s.url
      ∧ (s.send_command now text).status = s.status
      ∧ (s.send_command now text).listening = s.listening
      ∧ (s.send_command now text).solidworks_ok = s.solidworks_ok
      ∧ (s.send_command now text).qdrant_ok = s.qdrant_ok
      ∧ (s.send_command now text).ollama_ok = s.ollama_ok
      ∧ (s.send_command now text).claude_ok = s.claude_ok
      ∧ (s.send_command now text).features = s.features
      ∧ (s.send_command now text).waveform = s.waveform
      ∧ (s.send_command now text).last_transcription
          = s.last_transcription :=
  ⟨rfl, rfl, rfl, rfl, rfl, rfl, rfl, rfl, rfl, rfl, rfl⟩

/-- C10: applying any server message never degrades the connection
status: afterwards it is either unchanged or `Connected`; no message
ever sets it to `Disconnected` or `Connecting`. -/
theorem handle_message_never_degrades_status (s : BackendClient)
    (n : String) (m : ServerMessage) :
    (s.handle_message n m).connection_status = s.connection_status
      ∨ (s.handle_message n m).connection_status
          = ConnectionStatus.connected := by
  cases m with
  | status a b c d => exact Or.inr rfl
  | listening active => exact Or.inl rfl
  | transcription text => exact Or.inl rfl
  | action c a r => exact Or.inl rfl
  | features items => exact Or.inl rfl
  | waveform samples => exact Or.inl rfl
